import Mathlib

/-!
Shallow embedding of the tiled page-rendering and caching pipeline of
qpdfview: the render task (rendertask.cpp), the tile item and its shared
pixmap cache (tileitem.cpp), and the margin-trimming heuristic.

Conventions of the embedding:
* `qreal` (C++ double) is modelled as `ℚ` with exact arithmetic; this
  idealization is used only where it coincides with the source's IEEE
  double evaluation (for instance the uniform-image rounding chains below,
  whose intermediate doubles 95.0 and 0.0 are exact); a property decided by
  the rounding error of intermediate doubles is outside this embedding;
* Qt's `QImage` is a width/height/depth triple with a total pixel function;
* the atomic cancellation flag `QAtomicInt` is an `ℤ` value sampled at each
  checkpoint; an execution of `RenderTask::run` is a function of the flag
  values observed at its three checkpoints;
* signal emission is modelled as the list of emitted events, in order;
* mutation of the tile and of the shared cache is modelled by explicit
  state passing.
-/

namespace Qpdfview

/-! ## Basic data model -/

/-- An RGB color value as a natural number (as `QRgb`). -/
abbrev Color := ℕ

/-- The color `Qt::white`, `0xffffff`. -/
def whiteColor : Color := 16777215

/-- A decoded image (`QImage`): pixel dimensions, bit depth and a total
pixel-lookup function. `QPixmap` values are modelled by the same type. -/
structure Image where
  width : ℕ
  height : ℕ
  depth : ℕ
  pixel : ℕ → ℕ → Color

/-- Whether the image is null (`QImage::isNull`): it has no pixels. -/
def Image.isNull (img : Image) : Bool :=
  img.width == 0 || img.height == 0

/-- In-place color inversion (`QImage::invertPixels`) for 24-bit RGB data:
every pixel value is complemented bitwise. -/
def Image.invertPixels (img : Image) : Image :=
  { img with pixel := fun x y => (img.pixel x y) ^^^ 16777215 }

/-- The null pixmap `QPixmap()`. -/
def nullPixmap : Image :=
  { width := 0, height := 0, depth := 0, pixel := fun _ _ => 0 }

/-- Resolution part of the render parameters: integral horizontal and
vertical dots-per-inch (formatted with `%d` by the key computation) and the
device pixel ratio. -/
structure Resolution where
  resolutionX : ℤ
  resolutionY : ℤ
  devicePixelRatio : ℚ
deriving DecidableEq

/-- Render parameters (`RenderParam`): resolution, scale factor, rotation
(one of the four cardinal values, encoded 0..3) and the invert-colors flag.
Modelled from the spec: the `RenderParam` class itself lives in a header that
is not among the repository's files; its fields are those accessed by
rendertask.cpp and tileitem.cpp and listed in the spec's data model, and its
equality comparison is structural over all fields per the spec. -/
structure RenderParam where
  resolution : Resolution
  scaleFactor : ℚ
  rotation : ℕ
  invertColors : Bool
deriving DecidableEq

/-- A rectangle with rational coordinates, covering both `QRect` (integral
coordinates) and `QRectF` uses. -/
structure Rect where
  x : ℚ
  y : ℚ
  w : ℚ
  h : ℚ
deriving DecidableEq

/-- Qt's `qRound`: add one half and truncate towards zero. -/
def qRound (q : ℚ) : ℤ :=
  if 0 ≤ q then ⌊q + 1/2⌋ else ⌈q - 1/2⌉

/-- Identity of a `PageItem` (the parent-page pointer used as the first half
of the cache key): an abstract identifier. -/
abbrev PageId := ℕ

/-! ## The pixmap cache key (TileItem::pixmapKey) -/

/-- Value of a `qreal` as rendered by `sprintf` with `%f`: rounded to six
decimal places. The formatted text determines and is determined by this
integer numerator over 10^6. -/
def quantize6 (q : ℚ) : ℤ :=
  round (q * 1000000)

/-- The data rendered into the key string by `TileItem::pixmapKey` via
`sprintf("%d,%d,%f,%d,%d,%d,%d,%d,%d", ...)`: with the field count fixed and
comma separators, the formatted string is equal for two inputs exactly when
these nine components are equal, so the string is modelled by the tuple. -/
structure KeyData where
  resolutionX : ℤ
  resolutionY : ℤ
  scaleFactor6 : ℤ
  rotation : ℕ
  invertColors : Bool
  rectX : ℤ
  rectY : ℤ
  rectW : ℤ
  rectH : ℤ
deriving DecidableEq

/-- The cache key: the tile's parent `PageItem` paired with the key string. -/
abbrev CacheKey := PageId × KeyData

/-- The tile fingerprint (`TileItem::pixmapKey`): the parent page item paired
with the formatted-string data built from the page's render parameters
(note: the device pixel ratio is not printed) and the integer-rounded tile
rectangle coordinates. -/
def pixmapKey (page : PageId) (renderParam : RenderParam) (rect : Rect) : CacheKey :=
  (page,
   { resolutionX := renderParam.resolution.resolutionX
     resolutionY := renderParam.resolution.resolutionY
     scaleFactor6 := quantize6 renderParam.scaleFactor
     rotation := renderParam.rotation
     invertColors := renderParam.invertColors
     rectX := qRound rect.x
     rectY := qRound rect.y
     rectW := qRound rect.w
     rectH := qRound rect.h })

/-! ## Cancellation (rendertask.cpp anonymous namespace) -/

/-- Cancellation flag value: not canceled. -/
def NotCanceled : ℤ := 0

/-- Cancellation flag value: canceled normally (softly). -/
def CanceledNormally : ℤ := 1

/-- Cancellation flag value: canceled forcibly. -/
def CanceledForcibly : ℤ := 2

/-- The checkpoint test `testCancellation`: a prefetch run is considered
canceled only by a forced cancellation, a non-prefetch run by any
cancellation. -/
def testCancellation (wasCanceled : ℤ) (prefetch : Bool) : Bool :=
  if prefetch then wasCanceled == CanceledForcibly
  else !(wasCanceled == NotCanceled)

/-- Accessor `RenderTask::wasCanceled`: the flag is any value other than
`NotCanceled`. -/
def wasCanceled (flag : ℤ) : Bool :=
  !(flag == NotCanceled)

/-- Accessor `RenderTask::wasCanceledForcibly`: the flag equals
`CanceledForcibly`. -/
def wasCanceledForcibly (flag : ℤ) : Bool :=
  flag == CanceledForcibly

/-! ## Margin trimming (rendertask.cpp anonymous namespace) -/

/-- Rounding helper `roundDown`: shrink by the tolerance, quantize to the
precision and take the floor. -/
def roundDown (value precision tolerance : ℚ) : ℚ :=
  ((⌊(1 - tolerance) * value * precision⌋ : ℤ) : ℚ) / precision

/-- Rounding helper `roundUp`: grow by the tolerance, quantize to the
precision and take the ceiling. -/
def roundUp (value precision tolerance : ℚ) : ℚ :=
  ((⌈(1 + tolerance) * value * precision⌉ : ℤ) : ℚ) / precision

/-- Whether every pixel of column `x` equals the paper color
(`columnHasPaperColor`). -/
def columnHasPaperColor (x : ℕ) (paperColor : Color) (image : Image) : Bool :=
  (List.range image.height).all fun y => paperColor == image.pixel x y

/-- Whether every pixel of row `y` equals the paper color
(`rowHasPaperColor`). -/
def rowHasPaperColor (y : ℕ) (paperColor : Color) (image : Image) : Bool :=
  (List.range image.width).all fun x => paperColor == image.pixel x y

/-- Upward-counting scan loop `for(i = start; fuel steps remain; ++i) if (p i)
break;`: returns the first index satisfying `p`, or `start + fuel` when the
fuel (the loop bound) runs out. -/
def scanUpward (p : ℕ → Bool) : ℕ → ℕ → ℕ
  | 0, i => i
  | fuel + 1, i => if p i then i else scanUpward p fuel (i + 1)

/-- Downward-counting scan loop `for(i = start; i >= lo; --i) if (p i) break;`
with at most `fuel` tests: returns the first index (from `start` downward)
satisfying `p`, or the final loop variable when the index drops below `lo`. -/
def scanDownward (p : ℤ → Bool) (lo : ℤ) : ℕ → ℤ → ℤ
  | 0, i => i
  | fuel + 1, i => if i < lo then i else if p i then i else scanDownward p lo fuel (i - 1)

/-- The quantization precision of the crop box (`cropBoxPrecision`). -/
def cropBoxPrecision : ℚ := 100

/-- The rounding tolerance of the crop box (`cropBoxTolerance`, 0.05). -/
def cropBoxTolerance : ℚ := 1/20

/-- The margin-trimming heuristic `trimMargins`: scan for the leftmost and
rightmost non-paper columns and topmost and bottommost non-paper rows, and
return the normalized crop rectangle with its position rounded down and its
size rounded up. A null image yields the full unit rectangle. -/
def trimMargins (paperColor : Color) (image : Image) : Rect :=
  if image.isNull then { x := 0, y := 0, w := 1, h := 1 }
  else
    let width := image.width
    let height := image.height
    let left : ℕ := scanUpward (fun x => !columnHasPaperColor x paperColor image) width 0
    let right : ℤ := scanDownward (fun x => !columnHasPaperColor x.toNat paperColor image)
      (left : ℤ) width ((width : ℤ) - 1)
    let top : ℕ := scanUpward (fun y => !rowHasPaperColor y paperColor image) height 0
    let bottom : ℤ := scanDownward (fun y => !rowHasPaperColor y.toNat paperColor image)
      (top : ℤ) height ((height : ℤ) - 1)
    { x := roundDown ((left : ℚ) / (width : ℚ)) cropBoxPrecision cropBoxTolerance
      y := roundDown ((top : ℚ) / (height : ℚ)) cropBoxPrecision cropBoxTolerance
      w := roundUp (((right : ℚ) - (left : ℚ) + 1) / (width : ℚ)) cropBoxPrecision cropBoxTolerance
      h := roundUp (((bottom : ℚ) - (top : ℚ) + 1) / (height : ℚ)) cropBoxPrecision cropBoxTolerance }

/-! ## RenderTask::run -/

/-- An event emitted by a render task, as connected to the tile item:
`imageReady(renderParam, rect, prefetch, image)`,
`cropBoxReady(renderParam, rect, cropBox)` and `finished()`. -/
inductive REvent where
  | imageReady (renderParam : RenderParam) (rect : Rect) (prefetch : Bool) (image : Image)
  | cropBoxReady (renderParam : RenderParam) (rect : Rect) (cropBox : Rect)
  | finished

/-- The margin-trimming gate in `RenderTask::run` is the hard-coded constant
`true` (annotated in the source with a TODO naming a future `m_trimMargins`
member). -/
def trimMarginsRequested : Bool := true

/-- The paper color passed to `trimMargins` by `RenderTask::run` is the
hard-coded `Qt::white` (annotated with a TODO naming `m_paperColor`). -/
def runPaperColor : Color := whiteColor

/-- One execution of `RenderTask::run`, as the ordered list of emitted
events. `rendered` is the image produced by the external page rasterizer
(`m_page->render(...)`, an external capability); `flag1 flag2 flag3` are the
values of the atomic cancellation flag observed at the three checkpoints;
setting the device pixel ratio on the image does not change its pixels and
is not represented. -/
def RenderTask.run (renderParam : RenderParam) (rect : Rect) (prefetch : Bool)
    (rendered : Image) (flag1 flag2 flag3 : ℤ) : List REvent :=
  if testCancellation flag1 prefetch then [.finished]
  else
    if testCancellation flag2 prefetch then [.finished]
    else
      let image := if renderParam.invertColors then rendered.invertPixels else rendered
      if trimMarginsRequested then
        if testCancellation flag3 prefetch then
          [.imageReady renderParam rect prefetch image, .finished]
        else
          [.imageReady renderParam rect prefetch image,
           .cropBoxReady renderParam rect (trimMargins runPaperColor image),
           .finished]
      else
        [.imageReady renderParam rect prefetch image, .finished]

/-! ## The shared pixmap cache (TileItem::s_cache) -/

/-- Total cost of a list of cache entries (key, pixmap, cost). -/
def entriesCost (l : List (CacheKey × Image × ℕ)) : ℕ :=
  (l.map fun e => e.2.2).sum

/-- Modelled from the spec: the shared tile cache `s_cache` is an instance of
Qt's `QCache`, a class whose source is not part of this repository. It is a
cost-bounded least-recently-used map; per the spec's data model, eviction
drops least-recently-used entries to keep the total cost within the bound,
and an entry whose single cost exceeds the bound may "evict everything and
still not be admitted" (which is Qt's documented `QCache::insert` behavior:
such an entry is refused). Entries are kept most-recent first; `trimEntries`
drops least-recently-used entries until the total cost is within `goal`. -/
def trimEntries (goal : ℕ) (l : List (CacheKey × Image × ℕ)) :
    List (CacheKey × Image × ℕ) :=
  if h : entriesCost l ≤ goal then l
  else
    have hne : l ≠ [] := by
      intro he
      exact h (by simp [he, entriesCost])
    have : l.dropLast.length < l.length := by
      have hpos : 0 < l.length := List.length_pos.mpr hne
      simp only [List.length_dropLast]
      omega
    trimEntries goal l.dropLast
termination_by l.length

/-- The shared cache state: entries most-recent-first, and the configured
maximum total cost (`QCache::maxCost`). -/
structure Cache where
  entries : List (CacheKey × Image × ℕ)
  maxCost : ℕ

/-- Total resident cost of the cache (`QCache::totalCost`). -/
def Cache.totalCost (c : Cache) : ℕ :=
  entriesCost c.entries

/-- Modelled from the spec: cache membership test (`QCache::contains`). -/
def Cache.contains (c : Cache) (k : CacheKey) : Bool :=
  c.entries.any fun e => e.1 == k

/-- Modelled from the spec: cache lookup (`QCache::object`); the recency
refresh performed by a lookup does not affect keys, values or costs and is
not represented. -/
def Cache.object (c : Cache) (k : CacheKey) : Option Image :=
  (c.entries.find? fun e => e.1 == k).map fun e => e.2.1

/-- Modelled from the spec: cache insertion (`QCache::insert`). Any existing
entry under the key is removed first; an entry whose cost exceeds the bound
is refused; otherwise least-recently-used entries are evicted until the new
entry fits, and it becomes the most recent. -/
def Cache.insert (c : Cache) (k : CacheKey) (v : Image) (cost : ℕ) : Cache :=
  let remaining := c.entries.filter fun e => !(e.1 == k)
  if c.maxCost < cost then { c with entries := remaining }
  else { c with entries := (k, v, cost) :: trimEntries (c.maxCost - cost) remaining }

/-! ## TileItem state and operations (tileitem.cpp) -/

/-- The mutable state of a `TileItem` that the claims concern: the tile
rectangle `m_rect`, the error flag `m_pixmapError`, the directly-held pixmap
`m_pixmap` and the obsolete pixmap `m_obsoletePixmap`. -/
structure TileState where
  rect : Rect
  pixmapError : Bool
  pixmap : Image
  obsoletePixmap : Image

/-- A call `RenderTask::start(renderParam, rect, prefetch)` as launched by
`TileItem::startRender`. -/
structure StartCall where
  renderParam : RenderParam
  rect : Rect
  prefetch : Bool

/-- The operation `TileItem::startRender`: a no-op returning 0 when the tile
has errored, a render task is already running, or a prefetch finds the cache
already populated for the tile's fingerprint; otherwise it launches exactly
one render task with the tile's current parameters, region and prefetch flag
and returns 1. `page` and `pageParam` are the parent page item's identity and
current render parameters; `running` is `m_renderTask->isRunning()`. The
launched call (if any) is returned alongside the result code. -/
def startRender (page : PageId) (pageParam : RenderParam) (tile : TileState)
    (cache : Cache) (running : Bool) (prefetch : Bool) : ℕ × Option StartCall :=
  if tile.pixmapError || running || (prefetch && cache.contains (pixmapKey page pageParam tile.rect)) then
    (0, none)
  else
    (1, some { renderParam := pageParam, rect := tile.rect, prefetch := prefetch })

/-- The slot `TileItem::on_renderTask_imageReady`: a completion event whose
parameters or region differ from the tile's current ones is discarded;
otherwise the obsolete pixmap is cleared, a null image sets the error flag, a
prefetch result not forcibly canceled is inserted into the shared cache under
the tile's fingerprint at cost width·height·depth/8, and a non-prefetch
result not canceled at all is kept directly on the tile. `taskFlag` is the
render task's cancellation flag as read by `wasCanceledForcibly`/
`wasCanceled`. Returns the updated tile state and cache. -/
def on_renderTask_imageReady (page : PageId) (pageParam : RenderParam)
    (tile : TileState) (cache : Cache) (taskFlag : ℤ)
    (renderParam : RenderParam) (rect : Rect) (prefetch : Bool) (image : Image) :
    TileState × Cache :=
  if pageParam ≠ renderParam ∨ tile.rect ≠ rect then
    (tile, cache)
  else
    let tile1 := { tile with obsoletePixmap := nullPixmap }
    if image.isNull then
      ({ tile1 with pixmapError := true }, cache)
    else if prefetch && !wasCanceledForcibly taskFlag then
      let cost := image.width * image.height * image.depth / 8
      (tile1, cache.insert (pixmapKey page pageParam tile1.rect) image cost)
    else if !wasCanceled taskFlag then
      ({ tile1 with pixmap := image }, cache)
    else
      (tile1, cache)

/-- The operation `TileItem::takePixmap`: on a cache hit, return the cached
pixmap; otherwise promote a directly-held pixmap into the cache (at cost
width·height·depth/8) and return it; otherwise start an on-demand render and
return the null pixmap. The fourth component records the `startRender`
invocation and its outcome, when one happened. -/
def takePixmap (page : PageId) (pageParam : RenderParam) (tile : TileState)
    (cache : Cache) (running : Bool) :
    Image × TileState × Cache × Option (ℕ × Option StartCall) :=
  let key := pixmapKey page pageParam tile.rect
  if cache.contains key then
    ((cache.object key).getD nullPixmap, tile, cache, none)
  else if !tile.pixmap.isNull then
    let pixmap := tile.pixmap
    let tile1 := { tile with pixmap := nullPixmap }
    let cost := pixmap.width * pixmap.height * pixmap.depth / 8
    (pixmap, tile1, cache.insert key pixmap cost, none)
  else
    (nullPixmap, tile, cache, some (startRender page pageParam tile cache running false))

/-- What `TileItem::paint` draws. -/
inductive PaintOutput where
  | drewPixmap (p : Image)
  | drewObsoletePixmap (p : Image)
  | drewProgressIcon
  | drewErrorIcon

/-- The operation `TileItem::paint`: consume `takePixmap`, then draw the
obtained pixmap if non-null, else the obsolete pixmap if non-null, else the
progress or error icon according to the error flag. -/
def TileItem.paint (page : PageId) (pageParam : RenderParam) (tile : TileState)
    (cache : Cache) (running : Bool) :
    PaintOutput × TileState × Cache × Option (ℕ × Option StartCall) :=
  let r := takePixmap page pageParam tile cache running
  let pixmap := r.1
  let tile1 := r.2.1
  if !pixmap.isNull then
    (.drewPixmap pixmap, tile1, r.2.2.1, r.2.2.2)
  else if !tile1.obsoletePixmap.isNull then
    (.drewObsoletePixmap tile1.obsoletePixmap, tile1, r.2.2.1, r.2.2.2)
  else if !tile1.pixmapError then
    (.drewProgressIcon, tile1, r.2.2.1, r.2.2.2)
  else
    (.drewErrorIcon, tile1, r.2.2.1, r.2.2.2)

/-! ## Theorems -/

/-- Sample render parameters used by the concrete instances below. -/
def sampleParam : RenderParam :=
  { resolution := { resolutionX := 72, resolutionY := 72, devicePixelRatio := 1 }
    scaleFactor := 1
    rotation := 0
    invertColors := false }

/-- Render parameters differing from `sampleParam` only in the device pixel
ratio and in a sub-quantum perturbation of the scale factor. -/
def sampleParamB : RenderParam :=
  { resolution := { resolutionX := 72, resolutionY := 72, devicePixelRatio := 2 }
    scaleFactor := 1 + 1/1000000000
    rotation := 0
    invertColors := false }

/-- Sample tile rectangle used by the concrete instances below. -/
def sampleRect : Rect :=
  { x := 0, y := 0, w := 256, h := 256 }

/-- C1 (counterexample): two tiles on the same page whose render parameters
differ in the device pixel ratio (1 vs 2) and in the scale factor (by 10^-9)
— and agree in every other input — receive the same fingerprint from
`pixmapKey`, so the fingerprint is not injective in all `RenderParam`
fields: the claimed equivalence fails at this concrete input. -/
theorem pixmapKey_collides_on_devicePixelRatio :
    pixmapKey 0 sampleParam sampleRect = pixmapKey 0 sampleParamB sampleRect
    ∧ sampleParam.resolution.devicePixelRatio ≠ sampleParamB.resolution.devicePixelRatio
    ∧ sampleParam.scaleFactor ≠ sampleParamB.scaleFactor
    ∧ sampleParam.resolution.resolutionX = sampleParamB.resolution.resolutionX
    ∧ sampleParam.resolution.resolutionY = sampleParamB.resolution.resolutionY
    ∧ sampleParam.rotation = sampleParamB.rotation
    ∧ sampleParam.invertColors = sampleParamB.invertColors := by
  refine ⟨?_, by decide, by norm_num [sampleParam, sampleParamB], rfl, rfl, rfl, rfl⟩
  simp only [pixmapKey, sampleParam, sampleParamB, sampleRect, Prod.mk.injEq,
    KeyData.mk.injEq, quantize6]
  norm_num [round_eq]

/-- C1 (amended): two tiles receive equal fingerprints from `pixmapKey` iff
their page identity, the integral horizontal and vertical resolutions, the
scale factor up to the six-decimal quantization of the `%f` formatting, the
rotation, the invert-colors flag, and the four integer-rounded tile-rectangle
coordinates all compare equal; the device pixel ratio does not enter the
fingerprint. -/
theorem pixmapKey_eq_iff (p1 p2 : PageId) (rp1 rp2 : RenderParam) (r1 r2 : Rect) :
    pixmapKey p1 rp1 r1 = pixmapKey p2 rp2 r2 ↔
      (p1 = p2
       ∧ rp1.resolution.resolutionX = rp2.resolution.resolutionX
       ∧ rp1.resolution.resolutionY = rp2.resolution.resolutionY
       ∧ quantize6 rp1.scaleFactor = quantize6 rp2.scaleFactor
       ∧ rp1.rotation = rp2.rotation
       ∧ rp1.invertColors = rp2.invertColors
       ∧ qRound r1.x = qRound r2.x
       ∧ qRound r1.y = qRound r2.y
       ∧ qRound r1.w = qRound r2.w
       ∧ qRound r1.h = qRound r2.h) := by
  simp [pixmapKey, Prod.ext_iff, KeyData.mk.injEq]

/-- C2: a cancellation checkpoint (`testCancellation`, invoked at every
checkpoint of `RenderTask::run` with the task's prefetch flag) reports the
task as canceled iff either the task is not a prefetch and the atomic flag
holds any value other than `NotCanceled`, or the task is a prefetch and the
flag holds exactly `CanceledForcibly`; in particular a soft cancellation
never trips a prefetch checkpoint, while any cancellation trips an on-demand
checkpoint. -/
theorem testCancellation_iff (flag : ℤ) (prefetch : Bool) :
    (testCancellation flag prefetch = true ↔
      ((prefetch = false ∧ flag ≠ NotCanceled) ∨ (prefetch = true ∧ flag = CanceledForcibly)))
    ∧ testCancellation CanceledNormally true = false
    ∧ testCancellation CanceledNormally false = true
    ∧ testCancellation CanceledForcibly true = true := by
  refine ⟨?_, by decide, by decide, by decide⟩
  cases prefetch <;>
    simp [testCancellation, NotCanceled, CanceledForcibly]

/-- C6: every execution of `RenderTask::run` emits its events in the order
image-ready, then (possibly) crop-box-ready, then finished: the emitted list
is one of `[finished]`, `[imageReady, finished]`,
`[imageReady, cropBoxReady, finished]`; a crop-box-ready event is emitted
only if margin-trimming is requested and the checkpoint between the two
emissions did not report an effective cancellation; and a finished event is
emitted, last, on every path. -/
theorem run_event_order (renderParam : RenderParam) (rect : Rect) (prefetch : Bool)
    (rendered : Image) (flag1 flag2 flag3 : ℤ) :
    (RenderTask.run renderParam rect prefetch rendered flag1 flag2 flag3 = [.finished]
     ∨ (∃ img, RenderTask.run renderParam rect prefetch rendered flag1 flag2 flag3 =
          [.imageReady renderParam rect prefetch img, .finished])
     ∨ (∃ img cropBox, RenderTask.run renderParam rect prefetch rendered flag1 flag2 flag3 =
          [.imageReady renderParam rect prefetch img,
           .cropBoxReady renderParam rect cropBox, .finished]))
    ∧ (∀ rp2 r2 cb, REvent.cropBoxReady rp2 r2 cb ∈
          RenderTask.run renderParam rect prefetch rendered flag1 flag2 flag3 →
        trimMarginsRequested = true ∧ testCancellation flag3 prefetch = false)
    ∧ (RenderTask.run renderParam rect prefetch rendered flag1 flag2 flag3).getLast? =
        some REvent.finished := by
  simp only [RenderTask.run, trimMarginsRequested, if_true]
  split_ifs
  all_goals
    first
      | exact ⟨Or.inl rfl, by simp, by simp⟩
      | exact ⟨Or.inr (Or.inl ⟨_, rfl⟩), by simp, by simp⟩
      | refine ⟨Or.inr (Or.inr ⟨_, _, rfl⟩), by simp_all, by simp⟩

/-- C4: a completion event whose render parameters or region differ from the
tile's current parameters or region leaves everything unchanged: the handler
returns the tile state (current pixmap, obsolete pixmap, error flag) and the
shared cache exactly as they were. -/
theorem imageReady_stale_discarded (page : PageId) (pageParam : RenderParam)
    (tile : TileState) (cache : Cache) (taskFlag : ℤ)
    (renderParam : RenderParam) (rect : Rect) (prefetch : Bool) (image : Image)
    (hmismatch : pageParam ≠ renderParam ∨ tile.rect ≠ rect) :
    on_renderTask_imageReady page pageParam tile cache taskFlag
      renderParam rect prefetch image = (tile, cache) := by
  simp only [on_renderTask_imageReady, if_pos hmismatch]

/-- C4 (witness): a concrete stale completion event — the tile's current
scale factor differs from the event's — is discarded without touching the
tile or the cache. -/
theorem imageReady_stale_discarded_witness :
    on_renderTask_imageReady 0 sampleParam
      { rect := sampleRect, pixmapError := false, pixmap := nullPixmap,
        obsoletePixmap := nullPixmap }
      { entries := [], maxCost := 10 } 0 sampleParamB sampleRect false nullPixmap =
    ({ rect := sampleRect, pixmapError := false, pixmap := nullPixmap,
       obsoletePixmap := nullPixmap }, { entries := [], maxCost := 10 }) :=
  imageReady_stale_discarded 0 sampleParam _ _ 0 sampleParamB sampleRect false nullPixmap
    (Or.inl (by norm_num [sampleParam, sampleParamB]))

/-- C3: a completion event matching the tile's current parameters and region
and carrying a non-null image updates the state as follows (in every case the
obsolete pixmap is cleared): a prefetch result is inserted into the shared
cache under the tile's current fingerprint at cost width·height·depth/8 iff
the task was not forcibly canceled (in particular a normal cancellation still
allows the insert), and leaves the directly-held pixmap alone; a non-prefetch
result is kept directly on the tile iff the task was not canceled at all, and
leaves the cache alone. -/
theorem imageReady_matching (page : PageId) (pageParam : RenderParam)
    (tile : TileState) (cache : Cache) (taskFlag : ℤ)
    (rect : Rect) (prefetch : Bool) (image : Image)
    (hrect : tile.rect = rect) (himage : image.isNull = false) :
    ((prefetch = true ∧ taskFlag ≠ CanceledForcibly →
        on_renderTask_imageReady page pageParam tile cache taskFlag
          pageParam rect prefetch image =
        ({ tile with obsoletePixmap := nullPixmap },
         cache.insert (pixmapKey page pageParam tile.rect) image
           (image.width * image.height * image.depth / 8)))
     ∧ (prefetch = true ∧ taskFlag = CanceledForcibly →
        on_renderTask_imageReady page pageParam tile cache taskFlag
          pageParam rect prefetch image =
        ({ tile with obsoletePixmap := nullPixmap }, cache))
     ∧ (prefetch = false ∧ taskFlag = NotCanceled →
        on_renderTask_imageReady page pageParam tile cache taskFlag
          pageParam rect prefetch image =
        ({ tile with obsoletePixmap := nullPixmap, pixmap := image }, cache))
     ∧ (prefetch = false ∧ taskFlag ≠ NotCanceled →
        on_renderTask_imageReady page pageParam tile cache taskFlag
          pageParam rect prefetch image =
        ({ tile with obsoletePixmap := nullPixmap }, cache))) := by
  subst hrect
  refine ⟨?_, ?_, ?_, ?_⟩ <;> rintro ⟨hp, hf⟩ <;> subst hp
  · simp [on_renderTask_imageReady, himage, wasCanceledForcibly, hf]
  · simp [on_renderTask_imageReady, himage, wasCanceledForcibly, wasCanceled, hf,
      CanceledForcibly, NotCanceled]
  · simp [on_renderTask_imageReady, himage, wasCanceledForcibly, wasCanceled, hf]
  · simp [on_renderTask_imageReady, himage, wasCanceledForcibly, wasCanceled, hf]

/-- Sample tile state used by the concrete instances below. -/
def sampleTile : TileState :=
  { rect := sampleRect, pixmapError := false, pixmap := nullPixmap,
    obsoletePixmap := nullPixmap }

/-- Sample non-null image used by the concrete instances below. -/
def sampleImage : Image :=
  { width := 2, height := 2, depth := 32, pixel := fun _ _ => 0 }

/-- C3 (witness): a concrete matching prefetch completion whose task was
canceled normally (flag 1) still inserts the image into the shared cache
under the tile's fingerprint. -/
theorem imageReady_matching_witness :
    on_renderTask_imageReady 0 sampleParam sampleTile
      { entries := [], maxCost := 100 } CanceledNormally
      sampleParam sampleRect true sampleImage =
    ({ sampleTile with obsoletePixmap := nullPixmap },
     Cache.insert { entries := [], maxCost := 100 }
       (pixmapKey 0 sampleParam sampleTile.rect) sampleImage
       (sampleImage.width * sampleImage.height * sampleImage.depth / 8)) :=
  (imageReady_matching 0 sampleParam sampleTile { entries := [], maxCost := 100 }
      CanceledNormally sampleRect true sampleImage rfl (by decide)).1
    ⟨rfl, by decide⟩

/-- C8: `TileItem::startRender` returns the did-nothing signal 0 and
launches no render task exactly when the tile's error flag is set, or a
render task is already running, or the call is a prefetch and the shared
cache already holds an entry under the tile's fingerprint; in every other
case it launches exactly one render task carrying the tile's current
parameters, region and prefetch flag, and returns the started signal 1. -/
theorem startRender_spec (page : PageId) (pageParam : RenderParam) (tile : TileState)
    (cache : Cache) (running : Bool) (prefetch : Bool) :
    (startRender page pageParam tile cache running prefetch = (0, none) ↔
      (tile.pixmapError = true ∨ running = true ∨
       (prefetch = true ∧ cache.contains (pixmapKey page pageParam tile.rect) = true)))
    ∧ (¬(tile.pixmapError = true ∨ running = true ∨
         (prefetch = true ∧ cache.contains (pixmapKey page pageParam tile.rect) = true)) →
       startRender page pageParam tile cache running prefetch =
         (1, some { renderParam := pageParam, rect := tile.rect, prefetch := prefetch })) := by
  have hiff : (tile.pixmapError || running ||
      (prefetch && cache.contains (pixmapKey page pageParam tile.rect))) = true ↔
      (tile.pixmapError = true ∨ running = true ∨
       (prefetch = true ∧ cache.contains (pixmapKey page pageParam tile.rect) = true)) := by
    simp [Bool.or_eq_true, Bool.and_eq_true, or_assoc]
  simp only [startRender]
  split_ifs with h
  · simp [hiff.mp h]
  · have h' : ¬(tile.pixmapError = true ∨ running = true ∨
        (prefetch = true ∧ cache.contains (pixmapKey page pageParam tile.rect) = true)) :=
      fun hp => h (hiff.mpr hp)
    exact ⟨by simp [h'], fun _ => rfl⟩

/-- C8 (witness): a concrete non-errored, idle, non-prefetch call launches
one render task with the tile's parameters and region and returns 1. -/
theorem startRender_spec_witness :
    startRender 0 sampleParam sampleTile { entries := [], maxCost := 100 } false false =
      (1, some { renderParam := sampleParam, rect := sampleTile.rect, prefetch := false }) :=
  (startRender_spec 0 sampleParam sampleTile { entries := [], maxCost := 100 }
      false false).2 (by decide)

/-- C10: whenever `TileItem::paint` runs with no cache entry under the
tile's fingerprint and no directly-held pixmap, it invokes `startRender`
(through `takePixmap`) with the prefetch flag off; consequently a non-errored
tile with no render in flight actually starts an on-demand render as a side
effect of being painted, and (if the obsolete pixmap is also absent) the
progress glyph is what gets drawn in the meantime. -/
theorem paint_starts_render (page : PageId) (pageParam : RenderParam) (tile : TileState)
    (cache : Cache) (running : Bool)
    (hmiss : cache.contains (pixmapKey page pageParam tile.rect) = false)
    (hheld : tile.pixmap.isNull = true) :
    ((TileItem.paint page pageParam tile cache running).2.2.2 =
        some (startRender page pageParam tile cache running false)
     ∧ (tile.pixmapError = false → running = false →
        (TileItem.paint page pageParam tile cache running).2.2.2 =
          some (1, some { renderParam := pageParam, rect := tile.rect, prefetch := false }))
     ∧ (tile.pixmapError = false → tile.obsoletePixmap.isNull = true →
        (TileItem.paint page pageParam tile cache running).1 =
          PaintOutput.drewProgressIcon)) := by
  have hr : takePixmap page pageParam tile cache running =
      (nullPixmap, tile, cache, some (startRender page pageParam tile cache running false)) := by
    simp [takePixmap, hmiss, hheld]
  refine ⟨?_, ?_, ?_⟩
  · simp only [TileItem.paint, hr]
    split_ifs <;> rfl
  · intro he hrun
    have hs : startRender page pageParam tile cache running false =
        (1, some { renderParam := pageParam, rect := tile.rect, prefetch := false }) := by
      simp [startRender, he, hrun]
    simp only [TileItem.paint, hr, hs]
    split_ifs <;> rfl
  · intro he hobs
    simp only [Image.isNull, Bool.or_eq_true, beq_iff_eq] at hobs
    simp [TileItem.paint, hr, nullPixmap, Image.isNull, he]
    rcases hobs with h0 | h0 <;> simp [h0]

/-- C10 (witness): painting a concrete idle, non-errored tile with an empty
cache and no held pixmap starts an on-demand render and draws the progress
glyph. -/
theorem paint_starts_render_witness :
    (TileItem.paint 0 sampleParam sampleTile { entries := [], maxCost := 100 } false).2.2.2 =
      some (1, some { renderParam := sampleParam, rect := sampleTile.rect, prefetch := false })
    ∧ (TileItem.paint 0 sampleParam sampleTile { entries := [], maxCost := 100 } false).1 =
      PaintOutput.drewProgressIcon :=
  ⟨(paint_starts_render 0 sampleParam sampleTile { entries := [], maxCost := 100 } false
      rfl rfl).2.1 rfl rfl,
   (paint_starts_render 0 sampleParam sampleTile { entries := [], maxCost := 100 } false
      rfl rfl).2.2 rfl rfl⟩

/-- Cost of an empty entry list. -/
theorem entriesCost_nil : entriesCost [] = 0 := rfl

/-- Cost of a cons entry list. -/
theorem entriesCost_cons (e : CacheKey × Image × ℕ) (l : List (CacheKey × Image × ℕ)) :
    entriesCost (e :: l) = e.2.2 + entriesCost l := by
  simp [entriesCost]

/-- Removing entries never raises the total cost. -/
theorem entriesCost_filter_le (p : CacheKey × Image × ℕ → Bool)
    (l : List (CacheKey × Image × ℕ)) :
    entriesCost (l.filter p) ≤ entriesCost l := by
  induction l with
  | nil => simp
  | cons e t ih =>
    rw [List.filter_cons]
    split_ifs <;> simp only [entriesCost_cons] <;> omega

/-- Trimming always reaches its goal: the trimmed list's cost is within the
requested bound. -/
theorem entriesCost_trimEntries_le (goal : ℕ) (l : List (CacheKey × Image × ℕ)) :
    entriesCost (trimEntries goal l) ≤ goal := by
  generalize hn : l.length = n
  induction n using Nat.strong_induction_on generalizing l with
  | _ n ih =>
    unfold trimEntries
    split_ifs with h
    · exact h
    · have hne : l ≠ [] := by
        intro he
        exact h (by simp [he, entriesCost])
      have hlt : l.dropLast.length < l.length := by
        have hpos : 0 < l.length := List.length_pos.mpr hne
        simp only [List.length_dropLast]
        omega
      exact ih l.dropLast.length (hn ▸ hlt) l.dropLast rfl

/-- Insertion never changes the configured maximum cost. -/
theorem insert_maxCost (c : Cache) (k : CacheKey) (v : Image) (cost : ℕ) :
    (c.insert k v cost).maxCost = c.maxCost := by
  simp only [Cache.insert]
  split_ifs <;> rfl

/-- One insertion preserves the cache's cost bound. -/
theorem insert_totalCost_le (c : Cache) (k : CacheKey) (v : Image) (cost : ℕ)
    (h : c.totalCost ≤ c.maxCost) :
    (c.insert k v cost).totalCost ≤ (c.insert k v cost).maxCost := by
  simp only [Cache.insert]
  split_ifs with hc
  · simp only [Cache.totalCost] at h ⊢
    exact le_trans (entriesCost_filter_le _ _) h
  · simp only [Cache.totalCost, entriesCost_cons]
    have ht := entriesCost_trimEntries_le (c.maxCost - cost)
      (c.entries.filter fun e => !(e.1 == k))
    omega

/-- C5: after any sequence of cache insertions — each entry entering at the
cost width · height · depth / 8 of its pixel buffer, as at both insertion
sites (prefetch completion and lazy promotion during paint) — a cache whose
total resident cost respects the configured maximum still respects it. -/
theorem cache_insert_sequence_bound (c : Cache) (ops : List (CacheKey × Image))
    (h : c.totalCost ≤ c.maxCost) :
    (ops.foldl (fun a e => a.insert e.1 e.2 (e.2.width * e.2.height * e.2.depth / 8))
        c).totalCost ≤ c.maxCost := by
  induction ops generalizing c with
  | nil => simpa using h
  | cons e t ih =>
    simp only [List.foldl_cons]
    have h1 := insert_totalCost_le c e.1 e.2 (e.2.width * e.2.height * e.2.depth / 8) h
    have hm := insert_maxCost c e.1 e.2 (e.2.width * e.2.height * e.2.depth / 8)
    have := ih (c.insert e.1 e.2 (e.2.width * e.2.height * e.2.depth / 8)) h1
    rwa [hm] at this

/-- Sample cache key used by the concrete instances below. -/
def sampleKey : CacheKey :=
  (0, { resolutionX := 72, resolutionY := 72, scaleFactor6 := 1000000, rotation := 0,
        invertColors := false, rectX := 0, rectY := 0, rectW := 256, rectH := 256 })

/-- C5 (witness): inserting two concrete pixmaps into an initially empty
cache keeps the total resident cost within the configured maximum. -/
theorem cache_insert_sequence_bound_witness :
    (([(sampleKey, sampleImage), (sampleKey, sampleImage)] : List (CacheKey × Image)).foldl
        (fun (a : Cache) (e : CacheKey × Image) =>
          a.insert e.1 e.2 (e.2.width * e.2.height * e.2.depth / 8))
        ({ entries := [], maxCost := 20 } : Cache)).totalCost ≤ 20 :=
  cache_insert_sequence_bound { entries := [], maxCost := 20 }
    [(sampleKey, sampleImage), (sampleKey, sampleImage)] (by decide)

/-- An upward scan over indices that all fail the break test runs to the end
of its fuel. -/
theorem scanUpward_exhaust (p : ℕ → Bool) :
    ∀ fuel i, (∀ j, i ≤ j → j < i + fuel → p j = false) →
      scanUpward p fuel i = i + fuel := by
  intro fuel
  induction fuel with
  | zero => intro i _; rfl
  | succ m ih =>
    intro i h
    have hpi : p i = false := h i le_rfl (by omega)
    rw [scanUpward, hpi]
    simp only [Bool.false_eq_true, if_false]
    rw [ih (i + 1) (fun j hj1 hj2 => h j (by omega) (by omega))]
    omega

/-- A downward scan whose start already lies below the lower bound returns
the start unchanged. -/
theorem scanDownward_immediate (p : ℤ → Bool) (lo : ℤ) (fuel : ℕ) (i : ℤ)
    (h : i < lo) : scanDownward p lo fuel i = i := by
  cases fuel with
  | zero => rfl
  | succ m =>
    rw [scanDownward]
    simp [h]

/-- C9: on any non-empty image every pixel of which equals the paper color,
`trimMargins` returns the degenerate zero-size rectangle (0.95, 0.95, 0, 0):
the left/top scans run to the full width/height, giving position fractions of
1 rounded down to 0.95, and the right/bottom scans terminate immediately at
width−1 and height−1, giving size fractions of 0 rounded up to 0 — a
zero-size, not full-size, crop box. -/
theorem trimMargins_uniform (paperColor : Color) (image : Image)
    (hw : 0 < image.width) (hh : 0 < image.height)
    (huniform : ∀ x, x < image.width → ∀ y, y < image.height →
      image.pixel x y = paperColor) :
    trimMargins paperColor image = { x := 95/100, y := 95/100, w := 0, h := 0 } := by
  have hnotnull : image.isNull = false := by
    simp only [Image.isNull, Bool.or_eq_false_iff, beq_eq_false_iff_ne]
    omega
  have hcol : ∀ x, x < image.width → columnHasPaperColor x paperColor image = true := by
    intro x hx
    simp only [columnHasPaperColor, List.all_eq_true, List.mem_range, beq_iff_eq]
    intro y hy
    exact (huniform x hx y hy).symm
  have hrow : ∀ y, y < image.height → rowHasPaperColor y paperColor image = true := by
    intro y hy
    simp only [rowHasPaperColor, List.all_eq_true, List.mem_range, beq_iff_eq]
    intro x hx
    exact (huniform x hx y hy).symm
  have hleft : scanUpward (fun x => !columnHasPaperColor x paperColor image)
      image.width 0 = image.width := by
    have := scanUpward_exhaust (fun x => !columnHasPaperColor x paperColor image)
      image.width 0 (fun j _ hj => by simp [hcol j (by omega)])
    simpa using this
  have htop : scanUpward (fun y => !rowHasPaperColor y paperColor image)
      image.height 0 = image.height := by
    have := scanUpward_exhaust (fun y => !rowHasPaperColor y paperColor image)
      image.height 0 (fun j _ hj => by simp [hrow j (by omega)])
    simpa using this
  simp only [trimMargins, hnotnull, Bool.false_eq_true, if_false, hleft, htop]
  rw [scanDownward_immediate _ _ _ _ (by omega), scanDownward_immediate _ _ _ _ (by omega)]
  have hwq : (image.width : ℚ) ≠ 0 := Nat.cast_ne_zero.mpr (by omega)
  have hhq : (image.height : ℚ) ≠ 0 := Nat.cast_ne_zero.mpr (by omega)
  rw [Rect.mk.injEq]
  refine ⟨?_, ?_, ?_, ?_⟩
  · rw [div_self hwq]
    norm_num [roundDown, cropBoxPrecision, cropBoxTolerance]
  · rw [div_self hhq]
    norm_num [roundDown, cropBoxPrecision, cropBoxTolerance]
  · have : (((image.width : ℤ) - 1 : ℤ) : ℚ) - (image.width : ℚ) + 1 = 0 := by
      push_cast
      ring
    rw [this, zero_div]
    norm_num [roundUp, cropBoxPrecision, cropBoxTolerance]
  · have : (((image.height : ℤ) - 1 : ℤ) : ℚ) - (image.height : ℚ) + 1 = 0 := by
      push_cast
      ring
    rw [this, zero_div]
    norm_num [roundUp, cropBoxPrecision, cropBoxTolerance]

/-- A concrete fully white 3×3 image. -/
def uniformImage : Image :=
  { width := 3, height := 3, depth := 32, pixel := fun _ _ => whiteColor }

/-- C9 (witness): a concrete fully paper-colored image receives the
degenerate crop box (0.95, 0.95, 0, 0). -/
theorem trimMargins_uniform_witness :
    trimMargins whiteColor uniformImage = { x := 95/100, y := 95/100, w := 0, h := 0 } :=
  trimMargins_uniform whiteColor uniformImage (by decide) (by decide)
    (fun _ _ _ _ => rfl)

end Qpdfview
